import Mathlib

/-!
Verification development for the element-call connection lifecycle core.

The definitions below are a shallow embedding of the TypeScript source:

* src/livekit/openIDSFU.ts — SFUConfig, sfuConfigEquals, getSFUConfigWithOpenID,
  getLiveKitJWT;
* src/livekit/useECConnectionState.ts — sfuConfigValid, doConnect,
  connectAndPublish, doFocusSwitch, and the SFU-config-change effect of
  useECConnectionState;
* src/livekit/useLivekit.ts — syncMuteState;
* src/rtcSessionHelpers.ts — makePreferredLivekitFoci;
* src/utils/abortHandle.ts — AbortHandle, modelled as the boolean values that
  isAborted returns at each of the checks inside doConnect.

Asynchronous functions are embedded as pure functions from an environment
(describing the outcome of every awaited collaborator call) to the list of
side-effecting actions the function performs, paired with an optional thrown
error. A JavaScript function that resolves normally corresponds to an
Option.none error component; a rejected promise corresponds to Option.some.
-/

/-- Routing credentials for one focus, from openIDSFU.ts: a url and a jwt. -/
structure SFUConfig where
  url : String
  jwt : String
  deriving DecidableEq, Repr

/-- Embedding of sfuConfigEquals from openIDSFU.ts. Both arguments optional:
both undefined compares true, exactly one undefined compares false, otherwise
the jwt fields and the url fields are compared. -/
def sfuConfigEquals : Option SFUConfig → Option SFUConfig → Bool
  | none, none => true
  | none, some _ => false
  | some _, none => false
  | some a, some b => a.jwt == b.jwt && a.url == b.url

/-- Embedding of sfuConfigValid from useECConnectionState.ts: the config is
present and both the url and the jwt are non-empty strings (JavaScript
Boolean coercion of a string is false exactly on the empty string). -/
def sfuConfigValid (c : Option SFUConfig) : Bool :=
  match c with
  | none => false
  | some c => !(c.url == "") && !(c.jwt == "")

/-- Which branch the SFU-config-change effect in useECConnectionState takes. -/
inductive EffectAction where
  | focusSwitch
  | initialConnect
  | noop
  deriving DecidableEq, Repr

/-- Embedding of the branch selection of the useEffect in useECConnectionState
that reacts to an SFU config change: valid-to-different-valid performs a focus
switch, invalid-to-valid performs the initial connect, anything else does
nothing. The condition order follows the source. -/
def configChangeEffect (current next : Option SFUConfig) : EffectAction :=
  if sfuConfigValid next && sfuConfigValid current && !(sfuConfigEquals current next) then
    EffectAction.focusSwitch
  else if !(sfuConfigValid current) && sfuConfigValid next then
    EffectAction.initialConnect
  else
    EffectAction.noop

/-- Thrown JavaScript error values relevant to the connect path. The
constructor connectionError models a livekit ConnectionError carrying an HTTP
status; insufficientCapacity models InsufficientCapacityError and unknownCall
models UnknownCallError, both subclasses of ElementCallError from
utils/errors.ts; genericError models any other Error. -/
inductive JSError where
  | connectionError (status : Nat)
  | insufficientCapacity
  | unknownCall (cause : JSError)
  | genericError
  deriving DecidableEq, Repr

/-- Status values that connectAndPublish treats as capacity exhaustion:
503, 200 and 429, exactly as in the catch block of connectAndPublish. -/
def isCapacityStatus (s : Nat) : Bool :=
  s == 503 || s == 200 || s == 429

/-- Embedding of the catch block around the connect call in connectAndPublish:
a ConnectionError whose status is 503, 200 or 429 is replaced by
InsufficientCapacityError; every other error is rethrown unchanged. -/
def classifyConnectError (e : JSError) : JSError :=
  match e with
  | JSError.connectionError s =>
      if isCapacityStatus s then JSError.insufficientCapacity else e
  | _ => e

/-- Instanceof test for ElementCallError over the modelled error values. -/
def isElementCallError : JSError → Bool
  | JSError.insufficientCapacity => true
  | JSError.unknownCall _ => true
  | _ => false

/-- Embedding of the catch handler on the doConnect promise inside
useECConnectionState: an ElementCallError is stored in the error state as is,
any other Error is wrapped in UnknownCallError. Every modelled error value is
an instance of Error, so the final log-only branch of the source is
unreachable here. -/
def surfaceConnectFailure (e : JSError) : JSError :=
  if isElementCallError e then e else JSError.unknownCall e

/-- Observable side-effecting actions of the connect and focus-switch paths. -/
inductive CAction where
  | createTracks
  | muteTrack
  | stopTrack
  | transportConnect
  | publishMic
  | cloneScreenshare
  | publishScreenshare
  | logScreensharePublishFailure
  | disconnect
  deriving DecidableEq, Repr

/-- Outcomes of the awaited collaborator calls inside connectAndPublish:
whether the transport connect call rejects (and with what), and whether the
awaited microphone publish rejects. -/
structure PublishEnv where
  connectError : Option JSError
  micPublishError : Option JSError
  deriving DecidableEq, Repr

/-- Actions of the fire-and-forget screenshare publish loop at the end of
connectAndPublish: each track is published; a publish rejection is logged and
never thrown. Each list element says whether that publish fails. -/
def publishScreenshares : List Bool → List CAction
  | [] => []
  | fails :: rest =>
      CAction.publishScreenshare ::
        ((if fails then [CAction.logScreensharePublishFailure] else []) ++
          publishScreenshares rest)

/-- Embedding of connectAndPublish from useECConnectionState.ts. Connect to
the SFU; on rejection classify the error per classifyConnectError and rethrow.
On success, publish the microphone track when one was passed (awaited, so a
rejection propagates), then publish every screenshare track fire-and-forget. -/
def connectAndPublish (env : PublishEnv) (hasMicTrack : Bool)
    (screenshareTracks : List Bool) : List CAction × Option JSError :=
  match env.connectError with
  | some e => ([CAction.transportConnect], some (classifyConnectError e))
  | none =>
      if hasMicTrack then
        match env.micPublishError with
        | some e => ([CAction.transportConnect, CAction.publishMic], some e)
        | none =>
            (CAction.transportConnect :: CAction.publishMic ::
              publishScreenshares screenshareTracks, none)
      else
        (CAction.transportConnect :: publishScreenshares screenshareTracks, none)

/-- Environment of one doConnect attempt. The createTracksOutcome field is
none when the awaited createTracks call rejects (the source catches and logs
this), and some got when it resolves, with got recording whether at least one
track was returned. The abortedAtCheck fields are the values the attempt
observes from AbortHandle.isAborted at each of its three checks: after the
createTracks await, after the mute await, and after connectAndPublish. -/
structure ConnectEnv where
  hasMicPubAtStart : Bool
  createTracksOutcome : Option Bool
  abortedAtCheck1 : Bool
  audioEnabled : Bool
  abortedAtCheck2 : Bool
  hasMicPubAfterCreate : Bool
  publishEnv : PublishEnv
  abortedAtCheck3 : Bool
  deriving DecidableEq, Repr

/-- Continuation of doConnect after the createTracks try block, following the
source: when audio is disabled, await the mute and check the abort handle,
stopping the created track and returning on abort; then re-check whether a
microphone publication appeared while awaiting, stopping and returning if so;
otherwise run connectAndPublish with the pre-created mic track and no
screenshares, stopping the track and rethrowing on failure, and force
disconnecting when abort is observed after a successful connect. -/
def doConnectAfterTry (env : ConnectEnv) (hasTrack : Bool) (trace : List CAction) :
    List CAction × Option JSError :=
  let trace := trace ++
    (if env.audioEnabled then [] else if hasTrack then [CAction.muteTrack] else [])
  if !env.audioEnabled && env.abortedAtCheck2 then
    (trace ++ (if hasTrack then [CAction.stopTrack] else []), none)
  else if env.hasMicPubAfterCreate then
    (trace ++ (if hasTrack then [CAction.stopTrack] else []), none)
  else
    let result := connectAndPublish env.publishEnv hasTrack []
    match result.2 with
    | some e => (trace ++ result.1 ++ (if hasTrack then [CAction.stopTrack] else []), some e)
    | none =>
        if env.abortedAtCheck3 then (trace ++ result.1 ++ [CAction.disconnect], none)
        else (trace ++ result.1, none)

/-- Embedding of doConnect from useECConnectionState.ts. If the participant
already has a microphone publication the function logs and returns at once.
Otherwise it awaits createTracks inside a try block: on resolution it checks
the abort handle, stopping any created track and returning when aborted; on
rejection the error is caught and logged and the flow continues with no track
(note that the abort check inside the try block is skipped on this path). The
rest of the flow is doConnectAfterTry. -/
def doConnect (env : ConnectEnv) : List CAction × Option JSError :=
  if env.hasMicPubAtStart then ([], none)
  else
    match env.createTracksOutcome with
    | none => doConnectAfterTry env false [CAction.createTracks]
    | some got =>
        if env.abortedAtCheck1 then
          ([CAction.createTracks] ++ (if got then [CAction.stopTrack] else []), none)
        else
          doConnectAfterTry env got [CAction.createTracks]

/-- One video track publication of the local participant, as consulted by
doFocusSwitch: whether it currently has a track, whether its source is
ScreenShare, and whether republishing its clone on the new transport fails. -/
structure VideoPub where
  hasTrack : Bool
  isScreenShare : Bool
  clonePublishFails : Bool
  deriving DecidableEq, Repr

/-- The clones doFocusSwitch collects: one per publication that has a track
with source ScreenShare, in publication order, each recorded as its
republish-failure flag. -/
def screenshareClones (pubs : List VideoPub) : List Bool :=
  (pubs.filter fun p => p.hasTrack && p.isScreenShare).map fun p => p.clonePublishFails

/-- Environment of one doFocusSwitch call: the local video publications and
the outcomes of the connectAndPublish collaborator calls. -/
structure SwitchEnv where
  videoPubs : List VideoPub
  publishEnv : PublishEnv
  deriving DecidableEq, Repr

/-- Embedding of doFocusSwitch from useECConnectionState.ts: clone every
published screenshare track, disconnect from the old transport, then run
connectAndPublish with no microphone track and the cloned screenshare
tracks. -/
def doFocusSwitch (env : SwitchEnv) : List CAction × Option JSError :=
  let clones := screenshareClones env.videoPubs
  let connectResult := connectAndPublish env.publishEnv false clones
  (List.replicate clones.length CAction.cloneScreenshare ++
      CAction.disconnect :: connectResult.1,
    connectResult.2)

/-- One livekit focus as produced by makePreferredLivekitFoci: a service url
and a room alias. -/
structure LivekitFocus where
  livekit_service_url : String
  livekit_alias : String
  deriving DecidableEq, Repr

/-- The focus the rtc session reports in use, as seen through the
isLivekitFocus guard of rtcSessionHelpers.ts: either a livekit focus, taken
as is, or a focus of some other type, which is skipped. -/
inductive FocusInUse where
  | livekit (focus : LivekitFocus)
  | other
  deriving DecidableEq, Repr

/-- One entry of the published rtc_foci array of the domain discovery
document: a null or falsy entry, an entry that fails the isLivekitFocusConfig
guard, or a livekit focus config carrying a service url. -/
inductive WellKnownEntry where
  | nullEntry
  | notLivekitConfig
  | livekitCfg (serviceUrl : String)
  deriving DecidableEq, Repr

/-- Environment of one makePreferredLivekitFoci resolution pass: the focus the
session reports in use, the domain of the client (none when getDomain returns
a falsy value), the discovery result (none when discovery is absent, fails or
is not an array), and the statically configured fallback service url. -/
structure RtcEnv where
  focusInUse : Option FocusInUse
  domain : Option String
  wellKnown : Option (List WellKnownEntry)
  configUrl : Option String
  deriving DecidableEq, Repr

/-- Candidates contributed by the session focus-in-use source: the reported
focus when it passes the isLivekitFocus guard, pushed unchanged. -/
def focusInUseCandidates (env : RtcEnv) : List LivekitFocus :=
  match env.focusInUse with
  | some (FocusInUse.livekit f) => [f]
  | _ => []

/-- Candidates contributed by domain discovery: consulted only when a domain
exists and discovery returned an array; entries are filtered for truthiness
and the isLivekitFocusConfig guard, then paired with the room alias. -/
def wellKnownCandidates (env : RtcEnv) (roomAlias : String) : List LivekitFocus :=
  match env.domain, env.wellKnown with
  | some _, some entries =>
      entries.filterMap fun e =>
        match e with
        | WellKnownEntry.livekitCfg u =>
            some { livekit_service_url := u, livekit_alias := roomAlias }
        | _ => none
  | _, _ => []

/-- Candidate contributed by the static config fallback, when configured,
paired with the room alias. -/
def configCandidates (env : RtcEnv) (roomAlias : String) : List LivekitFocus :=
  match env.configUrl with
  | some u => [{ livekit_service_url := u, livekit_alias := roomAlias }]
  | none => []

/-- Embedding of makePreferredLivekitFoci from rtcSessionHelpers.ts: the
in-use focus first, then the discovery candidates in published order, then
the config fallback. An empty result throws MatrixRTCFocusMissingError
carrying the domain (empty string when there is no domain), modelled as the
error branch. -/
def makePreferredLivekitFoci (env : RtcEnv) (roomAlias : String) :
    Except String (List LivekitFocus) :=
  let preferredFoci :=
    focusInUseCandidates env ++ wellKnownCandidates env roomAlias ++
      configCandidates env roomAlias
  if preferredFoci.length = 0 then Except.error (env.domain.getD "")
  else Except.ok preferredFoci

/-- Outcome of the fetch inside getLiveKitJWT from openIDSFU.ts: the response
is ok and parses to a config, or the response status is not ok, or the fetch
throws. -/
inductive FetchOutcome where
  | success (cfg : SFUConfig)
  | httpError (status : Nat)
  | exception
  deriving DecidableEq, Repr

/-- Errors of the token exchange path: FailToGetOpenIdToken from
utils/errors.ts, or the plain Error thrown by getLiveKitJWT on any fetch
failure. -/
inductive OpenIDError where
  | failToGetOpenIdToken
  | sfuConfigFetchFailed
  deriving DecidableEq, Repr

/-- Embedding of getLiveKitJWT from openIDSFU.ts: a non-ok response makes the
try block throw, and any exception inside the try block, including that one,
is caught and rethrown as a plain fetch-failed Error. -/
def getLiveKitJWT (outcome : FetchOutcome) : Except OpenIDError SFUConfig :=
  match outcome with
  | FetchOutcome.success cfg => Except.ok cfg
  | FetchOutcome.httpError _ => Except.error OpenIDError.sfuConfigFetchFailed
  | FetchOutcome.exception => Except.error OpenIDError.sfuConfigFetchFailed

/-- Environment of one getSFUConfigWithOpenID call: whether the retried
getOpenIdToken call succeeds, and the outcome of the jwt fetch. -/
structure OpenIDEnv where
  openIdTokenOk : Bool
  fetch : FetchOutcome
  deriving DecidableEq, Repr

/-- Embedding of getSFUConfigWithOpenID from openIDSFU.ts: an OpenID token
failure rejects with FailToGetOpenIdToken; a getLiveKitJWT failure is caught,
logged as a warning, and makes the function resolve with undefined, modelled
as Except.ok none. -/
def getSFUConfigWithOpenID (env : OpenIDEnv) : Except OpenIDError (Option SFUConfig) :=
  if !env.openIdTokenOk then Except.error OpenIDError.failToGetOpenIdToken
  else
    match getLiveKitJWT env.fetch with
    | Except.ok cfg => Except.ok (some cfg)
    | Except.error _ => Except.ok none

/-- Observable actions of one syncMuteState call chain. -/
inductive MuteAction where
  | setEnabled
  | retryLog
  | resetIntent
  | giveUpLog
  deriving DecidableEq, Repr

/-- Outcome of one awaited setMicrophoneEnabled or setCameraEnabled call
inside syncMuteState: it resolves with a publication, resolves without one
(the source then throws and takes the transient retry path with the updating
flag already cleared), rejects with a non-permission error (the updating flag
is never cleared on this path), or rejects with NotAllowedError. -/
inductive AttemptResult where
  | publicationOk
  | publicationNull
  | throwsOther
  | throwsNotAllowed
  deriving DecidableEq, Repr

/-- Environment of one syncMuteState chain for one track kind: the transport
reported enabled state and the button state as read when the call with the
given iteration count runs, and the outcome of the enable call it makes. -/
structure MuteEnv where
  devEnabled : Nat → Bool
  btnEnabled : Nat → Bool
  result : Nat → AttemptResult

/-- Embedding of syncMuteState from useLivekit.ts for one track kind. A call
whose iteration count exceeds 10 logs and gives up. Otherwise, when the
device state already matches the button state, or an update is already in
flight, the call does nothing. Otherwise it invokes the enable operation:
on a resolved publication it sleeps and recurses with the counter increased;
on a null publication the thrown error takes the transient path, logging and
scheduling a retry with the counter increased; on a non-permission rejection
the same retry is scheduled but the updating flag is still set, so the retry
call does nothing; on NotAllowedError the intent is forced to disabled and
the chain stops. -/
def syncMuteState (env : MuteEnv) (updating : Bool) (iterCount : Nat) :
    List MuteAction :=
  if _h : iterCount > 10 then [MuteAction.giveUpLog]
  else if env.devEnabled iterCount == env.btnEnabled iterCount || updating then []
  else
    match env.result iterCount with
    | AttemptResult.publicationOk =>
        MuteAction.setEnabled :: syncMuteState env false (iterCount + 1)
    | AttemptResult.publicationNull =>
        MuteAction.setEnabled :: MuteAction.retryLog ::
          syncMuteState env false (iterCount + 1)
    | AttemptResult.throwsOther =>
        MuteAction.setEnabled :: MuteAction.retryLog ::
          syncMuteState env true (iterCount + 1)
    | AttemptResult.throwsNotAllowed =>
        [MuteAction.setEnabled, MuteAction.resetIntent]
  termination_by 11 - iterCount
  decreasing_by all_goals omega

/-- Mute environment of a device that never converges: the transport always
reports disabled while the button requests enabled, and every enable call
resolves with a publication that does not change the device state. -/
def divergentMuteEnv : MuteEnv where
  devEnabled := fun _ => false
  btnEnabled := fun _ => true
  result := fun _ => AttemptResult.publicationOk

/-- Claim C9: sfuConfigEquals returns true on two present configs exactly when
the url fields match and the jwt fields match; it returns true when both
arguments are undefined and false when exactly one of them is undefined. -/
theorem C9_sfuConfigEquals_value_equality (a b : SFUConfig) :
    (sfuConfigEquals (some a) (some b) = true ↔ a.url = b.url ∧ a.jwt = b.jwt) ∧
    sfuConfigEquals none none = true ∧
    sfuConfigEquals (some a) none = false ∧
    sfuConfigEquals none (some b) = false := by
  refine ⟨?_, rfl, rfl, rfl⟩
  simp [sfuConfigEquals, and_comm]

/-- Claim C7: when the current SFU config is valid and the newly supplied
config is equal to it by value, the config-change effect of
useECConnectionState selects neither the focus-switch branch nor the
initial-connect branch. -/
theorem C7_equal_config_noop (current next : Option SFUConfig)
    (hvalid : sfuConfigValid current = true)
    (heq : sfuConfigEquals current next = true) :
    configChangeEffect current next = EffectAction.noop := by
  simp [configChangeEffect, hvalid, heq]

/-- Witness for claim C7 at a concrete valid config supplied twice. -/
theorem C7_equal_config_noop_witness :
    sfuConfigValid (some ⟨"wss://sfu.example", "jwt"⟩) = true ∧
    sfuConfigEquals (some (SFUConfig.mk "wss://sfu.example" "jwt"))
        (some (SFUConfig.mk "wss://sfu.example" "jwt")) = true ∧
    configChangeEffect (some (SFUConfig.mk "wss://sfu.example" "jwt"))
        (some (SFUConfig.mk "wss://sfu.example" "jwt")) = EffectAction.noop :=
  ⟨by decide, by decide, C7_equal_config_noop _ _ (by decide) (by decide)⟩

/-- Claim C2: a transport connect failure that is a ConnectionError with
status 503, 200 or 429 makes connectAndPublish throw
InsufficientCapacityError; any other status is rethrown unchanged, and the
controller surfaces a rethrown ConnectionError as UnknownCallError wrapping
the cause, while an ElementCallError such as InsufficientCapacityError is
surfaced as itself. -/
theorem C2_capacity_classification (s : Nat) (mic : Option JSError)
    (hasMic : Bool) (shares : List Bool) :
    (connectAndPublish ⟨some (JSError.connectionError s), mic⟩ hasMic shares).2 =
        some (if isCapacityStatus s then JSError.insufficientCapacity
          else JSError.connectionError s) ∧
    isCapacityStatus 503 = true ∧ isCapacityStatus 200 = true ∧
    isCapacityStatus 429 = true ∧ isCapacityStatus 400 = false ∧
    surfaceConnectFailure JSError.insufficientCapacity =
      JSError.insufficientCapacity ∧
    surfaceConnectFailure (JSError.connectionError s) =
      JSError.unknownCall (JSError.connectionError s) := by
  refine ⟨?_, by decide, by decide, by decide, by decide, rfl, rfl⟩
  simp [connectAndPublish, classifyConnectError]

/-- Claim C3: with an in-use livekit focus A reported, a discovery document
publishing service urls B then C in that order, and a configured fallback D,
resolution returns exactly A first, then B and C each paired with the room
alias in published order, then D paired with the room alias; with no in-use
focus reported the same pass returns the same list without A at the front. -/
theorem C3_foci_order (A : LivekitFocus) (d bUrl cUrl dUrl roomAlias : String) :
    makePreferredLivekitFoci
        ⟨some (FocusInUse.livekit A), some d,
          some [WellKnownEntry.livekitCfg bUrl, WellKnownEntry.livekitCfg cUrl],
          some dUrl⟩ roomAlias =
      Except.ok [A, ⟨bUrl, roomAlias⟩, ⟨cUrl, roomAlias⟩, ⟨dUrl, roomAlias⟩] ∧
    makePreferredLivekitFoci
        ⟨none, some d,
          some [WellKnownEntry.livekitCfg bUrl, WellKnownEntry.livekitCfg cUrl],
          some dUrl⟩ roomAlias =
      Except.ok [⟨bUrl, roomAlias⟩, ⟨cUrl, roomAlias⟩, ⟨dUrl, roomAlias⟩] :=
  ⟨rfl, rfl⟩

/-- Claim C4: when the session contributes no usable in-use focus, domain
discovery contributes no candidate and no static fallback is configured,
resolution fails with MatrixRTCFocusMissingError carrying the domain; and a
successful resolution never returns an empty candidate list. -/
theorem C4_no_focus_available (env : RtcEnv) (roomAlias : String) :
    (focusInUseCandidates env = [] → wellKnownCandidates env roomAlias = [] →
      env.configUrl = none →
      makePreferredLivekitFoci env roomAlias = Except.error (env.domain.getD "")) ∧
    ∀ l, makePreferredLivekitFoci env roomAlias = Except.ok l → l ≠ [] := by
  constructor
  · intro h1 h2 h3
    simp [makePreferredLivekitFoci, h1, h2, configCandidates, h3]
  · intro l hl hnil
    subst hnil
    unfold makePreferredLivekitFoci at hl
    set L := focusInUseCandidates env ++ wellKnownCandidates env roomAlias ++
      configCandidates env roomAlias with hLdef
    by_cases h : L.length = 0
    · rw [if_pos h] at hl
      exact Except.noConfusion hl
    · rw [if_neg h] at hl
      injection hl with hok
      exact h (by rw [hok]; rfl)

/-- Witness for claim C4 at a session with a non-livekit in-use focus, no
domain, no discovery result and no configured fallback. -/
theorem C4_no_focus_available_witness :
    makePreferredLivekitFoci ⟨some FocusInUse.other, none, none, none⟩
        "!room:example.org" = Except.error "" :=
  (C4_no_focus_available _ _).1 rfl rfl rfl

/-- Claim C5 counterexample: with the OpenID token obtained and a POST that
returns HTTP status 500, getSFUConfigWithOpenID resolves successfully with
undefined instead of rejecting. -/
theorem C5_fetch_failure_counterexample :
    getSFUConfigWithOpenID ⟨true, FetchOutcome.httpError 500⟩ = Except.ok none ∧
    getSFUConfigWithOpenID ⟨true, FetchOutcome.httpError 500⟩ ≠
        Except.error OpenIDError.sfuConfigFetchFailed ∧
    getSFUConfigWithOpenID ⟨true, FetchOutcome.httpError 500⟩ ≠
        Except.error OpenIDError.failToGetOpenIdToken :=
  ⟨rfl, fun h => Except.noConfusion h, fun h => Except.noConfusion h⟩

/-- Claim C5 amended: when the OpenID token fetch succeeds and the jwt POST
does not, the inner getLiveKitJWT rejects with the fetch-failed error, but
getSFUConfigWithOpenID catches that rejection, logs it, and resolves
successfully with undefined; only an OpenID token failure makes
getSFUConfigWithOpenID itself reject, with FailToGetOpenIdToken. -/
theorem C5_fetch_failure_swallowed (env : OpenIDEnv)
    (htoken : env.openIdTokenOk = true)
    (hfail : ∀ cfg, env.fetch ≠ FetchOutcome.success cfg) :
    getLiveKitJWT env.fetch = Except.error OpenIDError.sfuConfigFetchFailed ∧
    getSFUConfigWithOpenID env = Except.ok none ∧
    getSFUConfigWithOpenID ⟨false, env.fetch⟩ =
      Except.error OpenIDError.failToGetOpenIdToken := by
  have hjwt : getLiveKitJWT env.fetch =
      Except.error OpenIDError.sfuConfigFetchFailed := by
    cases hf : env.fetch with
    | success cfg => exact absurd hf (hfail cfg)
    | httpError s => rfl
    | exception => rfl
  refine ⟨hjwt, ?_, rfl⟩
  simp [getSFUConfigWithOpenID, htoken, hjwt]

/-- Witness for claim C5 amended at a POST failing with HTTP status 404. -/
theorem C5_fetch_failure_swallowed_witness :
    getLiveKitJWT (FetchOutcome.httpError 404) =
        Except.error OpenIDError.sfuConfigFetchFailed ∧
    getSFUConfigWithOpenID ⟨true, FetchOutcome.httpError 404⟩ = Except.ok none ∧
    getSFUConfigWithOpenID ⟨false, FetchOutcome.httpError 404⟩ =
      Except.error OpenIDError.failToGetOpenIdToken :=
  C5_fetch_failure_swallowed ⟨true, FetchOutcome.httpError 404⟩ rfl
    (fun _cfg h => FetchOutcome.noConfusion h)

/-- Claim C1: when doConnect begins with no existing microphone publication,
the createTracks await resolves, and the abort handle reads aborted at the
check after track creation or, with audio muted, at the check after the mute
await, then the transport connect operation never appears in the action
trace, the attempt resolves without an error, and a pre-created track is
stopped. -/
theorem C1_abort_before_connect (env : ConnectEnv) (got : Bool)
    (hstart : env.hasMicPubAtStart = false)
    (hcreate : env.createTracksOutcome = some got)
    (habort : env.abortedAtCheck1 = true ∨
      (env.audioEnabled = false ∧ env.abortedAtCheck2 = true)) :
    CAction.transportConnect ∉ (doConnect env).1 ∧
    (doConnect env).2 = none ∧
    (got = true → CAction.stopTrack ∈ (doConnect env).1) := by
  rcases habort with h1 | ⟨hae, h2⟩
  · cases got <;> simp [doConnect, hstart, hcreate, h1]
  · cases h1 : env.abortedAtCheck1
    · cases got <;>
        simp [doConnect, doConnectAfterTry, hstart, hcreate, h1, hae, h2]
    · cases got <;> simp [doConnect, hstart, hcreate, h1]

/-- Witness for claim C1: abort observed right after track creation, with the
pre-created track present. -/
theorem C1_abort_before_connect_witness :
    CAction.transportConnect ∉
        (doConnect ⟨false, some true, true, true, false, false, ⟨none, none⟩, false⟩).1 ∧
    (doConnect ⟨false, some true, true, true, false, false, ⟨none, none⟩, false⟩).2 = none ∧
    CAction.stopTrack ∈
      (doConnect ⟨false, some true, true, true, false, false, ⟨none, none⟩, false⟩).1 :=
  ⟨(C1_abort_before_connect _ true rfl rfl (Or.inl rfl)).1,
    (C1_abort_before_connect _ true rfl rfl (Or.inl rfl)).2.1,
    (C1_abort_before_connect _ true rfl rfl (Or.inl rfl)).2.2 rfl⟩

/-- Claim C10: when the local participant already has a microphone
publication, observed either at the start of doConnect or at the re-check
after the pre-created track exists, doConnect returns without the transport
connect operation ever appearing in the trace and without raising an error,
and in the re-check case any pre-created track is stopped. -/
theorem C10_existing_mic_publication (env : ConnectEnv)
    (hmic : env.hasMicPubAtStart = true ∨ env.hasMicPubAfterCreate = true) :
    CAction.transportConnect ∉ (doConnect env).1 ∧
    (doConnect env).2 = none ∧
    (env.hasMicPubAtStart = false → env.createTracksOutcome = some true →
      CAction.stopTrack ∈ (doConnect env).1) := by
  rcases hmic with h | h
  · simp [doConnect, h]
  · cases hs : env.hasMicPubAtStart
    · cases hc : env.createTracksOutcome with
      | none =>
          cases hae : env.audioEnabled <;> cases ha2 : env.abortedAtCheck2 <;>
            simp [doConnect, doConnectAfterTry, hs, h, hc, hae, ha2]
      | some got =>
          cases ha1 : env.abortedAtCheck1 <;> cases hae : env.audioEnabled <;>
            cases ha2 : env.abortedAtCheck2 <;> cases got <;>
              simp [doConnect, doConnectAfterTry, hs, h, hc, ha1, hae, ha2]
    · simp [doConnect, hs]

/-- Witness for claim C10: the microphone publication appears while the track
is being created, so the attempt stops the pre-created track and never
connects. -/
theorem C10_existing_mic_publication_witness :
    CAction.transportConnect ∉
        (doConnect ⟨false, some true, false, true, false, true, ⟨none, none⟩, false⟩).1 ∧
    (doConnect ⟨false, some true, false, true, false, true, ⟨none, none⟩, false⟩).2 = none ∧
    CAction.stopTrack ∈
      (doConnect ⟨false, some true, false, true, false, true, ⟨none, none⟩, false⟩).1 :=
  ⟨(C10_existing_mic_publication _ (Or.inr rfl)).1,
    (C10_existing_mic_publication _ (Or.inr rfl)).2.1,
    (C10_existing_mic_publication _ (Or.inr rfl)).2.2 rfl rfl⟩

/-- Helper: the microphone publish action never occurs in the screenshare
publish loop. -/
theorem publishMic_not_mem_publishScreenshares (l : List Bool) :
    CAction.publishMic ∉ publishScreenshares l := by
  induction l with
  | nil => simp [publishScreenshares]
  | cons b rest ih => cases b <;> simp [publishScreenshares, ih]

/-- Helper: the capture-device track creation action never occurs in the
screenshare publish loop. -/
theorem createTracks_not_mem_publishScreenshares (l : List Bool) :
    CAction.createTracks ∉ publishScreenshares l := by
  induction l with
  | nil => simp [publishScreenshares]
  | cons b rest ih => cases b <;> simp [publishScreenshares, ih]

/-- Helper: the screenshare publish loop performs exactly one publish action
per carried track. -/
theorem publishScreenshares_count (l : List Bool) :
    (publishScreenshares l).count CAction.publishScreenshare = l.length := by
  induction l with
  | nil => rfl
  | cons b rest ih =>
      cases b <;> simp [publishScreenshares, ih, List.count_cons, List.count_append]

/-- Claim C6: a focus switch while the transport connect succeeds clones each
active screen-share publication, disconnects from the old transport before
the new connect, republishes exactly the cloned screen-share tracks with any
publish failure logged rather than thrown, and never passes a microphone
track nor re-requests one from the capture device. -/
theorem C6_focus_switch_preserves_screenshare (env : SwitchEnv)
    (hconn : env.publishEnv.connectError = none)
    (hss : 1 ≤ (screenshareClones env.videoPubs).length) :
    (doFocusSwitch env).1 =
        List.replicate (screenshareClones env.videoPubs).length
            CAction.cloneScreenshare ++
          CAction.disconnect :: CAction.transportConnect ::
            publishScreenshares (screenshareClones env.videoPubs) ∧
    (doFocusSwitch env).2 = none ∧
    CAction.publishMic ∉ (doFocusSwitch env).1 ∧
    CAction.createTracks ∉ (doFocusSwitch env).1 ∧
    ((doFocusSwitch env).1).count CAction.publishScreenshare =
      (screenshareClones env.videoPubs).length ∧
    CAction.publishScreenshare ∈ (doFocusSwitch env).1 := by
  have htrace : (doFocusSwitch env).1 =
      List.replicate (screenshareClones env.videoPubs).length
          CAction.cloneScreenshare ++
        CAction.disconnect :: CAction.transportConnect ::
          publishScreenshares (screenshareClones env.videoPubs) := by
    simp [doFocusSwitch, connectAndPublish, hconn]
  have herr : (doFocusSwitch env).2 = none := by
    simp [doFocusSwitch, connectAndPublish, hconn]
  have hcount : ((doFocusSwitch env).1).count CAction.publishScreenshare =
      (screenshareClones env.videoPubs).length := by
    rw [htrace]
    simp [List.count_append, List.count_cons, List.count_replicate,
      publishScreenshares_count]
  refine ⟨htrace, herr, ?_, ?_, hcount, ?_⟩
  · rw [htrace]
    simp [List.mem_append, List.mem_replicate,
      publishMic_not_mem_publishScreenshares]
  · rw [htrace]
    simp [List.mem_append, List.mem_replicate,
      createTracks_not_mem_publishScreenshares]
  · have hpos : 0 < ((doFocusSwitch env).1).count CAction.publishScreenshare := by
      rw [hcount]; omega
    exact List.count_pos_iff.mp hpos

/-- Witness for claim C6: one active screenshare publication and a transport
connect that succeeds. -/
theorem C6_focus_switch_preserves_screenshare_witness :
    (doFocusSwitch ⟨[⟨true, true, false⟩], ⟨none, none⟩⟩).1 =
        List.replicate
            (screenshareClones [⟨true, true, false⟩]).length
            CAction.cloneScreenshare ++
          CAction.disconnect :: CAction.transportConnect ::
            publishScreenshares (screenshareClones [⟨true, true, false⟩]) ∧
    (doFocusSwitch ⟨[⟨true, true, false⟩], ⟨none, none⟩⟩).2 = none ∧
    CAction.publishMic ∉ (doFocusSwitch ⟨[⟨true, true, false⟩], ⟨none, none⟩⟩).1 ∧
    CAction.createTracks ∉ (doFocusSwitch ⟨[⟨true, true, false⟩], ⟨none, none⟩⟩).1 ∧
    ((doFocusSwitch ⟨[⟨true, true, false⟩], ⟨none, none⟩⟩).1).count
        CAction.publishScreenshare =
      (screenshareClones [⟨true, true, false⟩]).length ∧
    CAction.publishScreenshare ∈ (doFocusSwitch ⟨[⟨true, true, false⟩], ⟨none, none⟩⟩).1 :=
  C6_focus_switch_preserves_screenshare ⟨[⟨true, true, false⟩], ⟨none, none⟩⟩ rfl
    (by decide)

/-- Helper: from any starting iteration count, the syncMuteState chain
invokes the enable operation at most 11 minus that count many times. -/
theorem syncMuteState_count_le (env : MuteEnv) :
    ∀ (d i : Nat), 11 - i ≤ d → ∀ (updating : Bool),
      (syncMuteState env updating i).count MuteAction.setEnabled ≤ 11 - i := by
  intro d
  induction d with
  | zero =>
      intro i hi u
      have hgt : i > 10 := by omega
      rw [syncMuteState]
      simp [hgt]
  | succ d ih =>
      intro i hi u
      by_cases hgt : i > 10
      · rw [syncMuteState]
        simp [hgt]
      · rw [syncMuteState, dif_neg hgt]
        by_cases hc : (env.devEnabled i == env.btnEnabled i || u) = true
        · rw [if_pos hc]
          simp
        · rw [if_neg hc]
          have hle : 11 - (i + 1) ≤ d := by omega
          have h1 := ih (i + 1) hle false
          have h2 := ih (i + 1) hle true
          cases hr : env.result i <;> simp [List.count_cons] <;> omega

/-- Helper: against the never-converging device the chain starting at any
iteration count at most 11 performs exactly 11 minus that count enable
invocations. -/
theorem syncMuteState_divergent_count :
    ∀ (d i : Nat), 11 - i = d →
      (syncMuteState divergentMuteEnv false i).count MuteAction.setEnabled =
        11 - i := by
  intro d
  induction d with
  | zero =>
      intro i hi
      have hgt : i > 10 := by omega
      rw [syncMuteState]
      simp [hgt]
      omega
  | succ d ih =>
      intro i hi
      have hgt : ¬ i > 10 := by omega
      rw [syncMuteState, dif_neg hgt]
      rw [if_neg (by simp [divergentMuteEnv])]
      have hr : divergentMuteEnv.result i = AttemptResult.publicationOk := rfl
      rw [hr]
      have h1 := ih (i + 1) (by omega)
      simp [List.count_cons, h1]
      omega

/-- Claim C8 amended: for every mute environment the syncMuteState chain
started at iteration count 0 performs at most 11 enable invocations
(iteration counter values 0 through 10) before logging and giving up; the
chain always terminates. -/
theorem C8_mute_attempt_bound (env : MuteEnv) (updating : Bool) :
    (syncMuteState env updating 0).count MuteAction.setEnabled ≤ 11 :=
  syncMuteState_count_le env 11 0 (by omega) updating

/-- Claim C8 counterexample: against a device that never converges the chain
started at iteration count 0 performs exactly 11 enable invocations before
giving up, exceeding the claimed bound of 10. -/
theorem C8_eleven_attempts_counterexample :
    (syncMuteState divergentMuteEnv false 0).count MuteAction.setEnabled = 11 ∧
    ¬ ((syncMuteState divergentMuteEnv false 0).count MuteAction.setEnabled ≤ 10) := by
  have h := syncMuteState_divergent_count 11 0 rfl
  exact ⟨h, by omega⟩
